import Mathlib

/-!
Shallow embedding of the two-player vote game core (src/unnamed/part_000).

The source is a single React component.  Its mutable state is a collection
of `useState` hooks plus `useRef` shadow copies that are kept in sync
synchronously (`currentRoundIdRef`, `lockedRoleRef`, `sessionIdRef`,
`snapshotVersionRef`, ...); since every handler runs to completion before
the next event, each state/ref pair is modelled as a single field of
`AppState`.  JavaScript numbers holding unix timestamps, versions and
scores are modelled as `Int`; JS truthiness tests on `string | null` and
`number | null` fields (`!currentRoundId`, `!startTimeSec`, ...) are
modelled as "is `none` or the zero/empty value".  `localStorage` writes,
`console` logging and URL updates are effect-free for the claims below and
are not modelled; outbound `channel.send` calls are modelled only where a
claim needs them (the local vote returns the message it sends, and the
assignRoles retry loop is modelled as its own transition system).
-/

namespace VoteGame

/-- Role: `'red' | 'blue'`. -/
inductive Role
  | red
  | blue
deriving DecidableEq, Repr

/-- `formatRoleLabel` from the source. -/
def formatRoleLabel : Role → String
  | .red => "红方 Red"
  | .blue => "蓝方 Blue"

/-- The complement role, `role === 'red' ? 'blue' : 'red'` in the source. -/
def oppositeRole : Role → Role
  | .red => .blue
  | .blue => .red

/-- GameState: `'idle' | 'running' | 'ended'`. -/
inductive GameState
  | idle
  | running
  | ended
deriving DecidableEq, Repr

/-- ConnectionMode: `'offer' | 'answer'`. -/
inductive ConnectionMode
  | offer
  | answer
deriving DecidableEq, Repr

/-- ConnectionStatus: `'idle' | 'creating-offer' | 'waiting-answer' | 'connected' | 'error'`. -/
inductive ConnectionStatus
  | idle
  | creatingOffer
  | waitingAnswer
  | connected
  | error
deriving DecidableEq, Repr

/-- VoteEvent: `{ target: Role; elapsed: number }`. -/
structure VoteEvent where
  target : Role
  elapsed : Int
deriving DecidableEq, Repr

/-- SnapshotEvent: `{ at: number; target: Role }` (`at` is a Lean keyword, renamed `at_`). -/
structure SnapshotEvent where
  at_ : Int
  target : Role
deriving DecidableEq, Repr

/-- SessionRoles: `{ hostRole: Role; guestRole: Role }`. -/
structure SessionRoles where
  hostRole : Role
  guestRole : Role
deriving DecidableEq, Repr

/-- GameSnapshot, the versioned full serialization of Round+Session state. -/
structure GameSnapshot where
  version : Int
  lastUpdatedAt : Int
  gameId : String
  sessionId : Option String
  isHost : Bool
  lockedRole : Role
  startTimeSec : Int
  endTimeSec : Int
  gameState : GameState
  scoreRed : Int
  scoreBlue : Int
  events : List SnapshotEvent
deriving DecidableEq, Repr

/-- HistoryIndexEntry over completed rounds. -/
structure HistoryIndexEntry where
  gameId : String
  startTimeSec : Int
  endTimeSec : Int
  scoreRed : Int
  scoreBlue : Int
  lastUpdatedAt : Int
deriving DecidableEq, Repr

/-- The scores object `{ red: number; blue: number }`. -/
structure Scores where
  red : Int
  blue : Int
deriving DecidableEq, Repr

/-- The tagged message union sent over the data channel. -/
inductive Message
  | start (roundId : String) (endTime : Int) (roles : Option SessionRoles)
  | vote (roundId : String) (target : Role) (at_ : Int)
  | proposeEndChange (roundId : String) (proposedEndTime : Int)
  | acceptEndChange (roundId : String) (proposedEndTime : Int)
  | rejectEndChange (roundId : String) (proposedEndTime : Int)
  | proposeEndNow (roundId : String)
  | acceptEndNow (roundId : String)
  | rejectEndNow (roundId : String)
  | assignRoles (sessionId : String) (hostRole : Role) (guestRole : Role)
  | assignRolesAck (sessionId : String) (myRole : Role)
  | stateSnapshot (roundId : String) (payload : GameSnapshot)
deriving DecidableEq, Repr

/-- The component's mutable state: each `useState` hook (with its `useRef`
shadow merged in, see the header comment) that the protocol logic touches. -/
structure AppState where
  lockedRole : Option Role
  roleLocked : Bool
  sessionId : Option String
  roleSyncMessage : Option String
  connectionMode : ConnectionMode
  connectionStatus : ConnectionStatus
  gameState : GameState
  currentRoundId : Option String
  currentGameId : Option String
  storedGameIdHint : Option String
  snapshotVersion : Int
  snapshotMeta : Option (Int × Int)
  offlineSnapshotMode : Bool
  startTimeSec : Option Int
  endTimeSec : Option Int
  resolvedEndTimeSec : Option Int
  timeRemaining : Int
  scores : Scores
  voteEvents : List VoteEvent
  incomingEndChange : Option Int
  incomingEndNow : Bool
  infoMessage : Option String
  rolesConfirmed : Bool
  sessionRoles : Option SessionRoles
  voteIgnoreMessage : Option String
  roleAssignmentNotice : Option String
  historyViewSnapshot : Option GameSnapshot
  error : Option String
deriving DecidableEq, Repr

/-- JS truthiness of a `string | null` field: `null` and `''` are falsy. -/
def strFalsy : Option String → Bool
  | none => true
  | some s => s = ""

/-- JS truthiness of a `number | null` field: `null` and `0` are falsy. -/
def numFalsy : Option Int → Bool
  | none => true
  | some n => n = 0

/-- The initial state of every hook (`useState` initialisers). -/
def initialAppState : AppState where
  lockedRole := none
  roleLocked := false
  sessionId := none
  roleSyncMessage := none
  connectionMode := .offer
  connectionStatus := .idle
  gameState := .idle
  currentRoundId := none
  currentGameId := none
  storedGameIdHint := none
  snapshotVersion := 0
  snapshotMeta := none
  offlineSnapshotMode := false
  startTimeSec := none
  endTimeSec := none
  resolvedEndTimeSec := none
  timeRemaining := 0
  scores := ⟨0, 0⟩
  voteEvents := []
  incomingEndChange := none
  incomingEndNow := false
  infoMessage := none
  rolesConfirmed := false
  sessionRoles := none
  voteIgnoreMessage := none
  roleAssignmentNotice := none
  historyViewSnapshot := none
  error := none

/-- `applyVote`: increments the target's score, appends to the vote log,
clears the vote-ignore notice. -/
def applyVote (target : Role) (elapsed : Int) (s : AppState) : AppState :=
  { s with
    scores :=
      match target with
      | .red => ⟨s.scores.red + 1, s.scores.blue⟩
      | .blue => ⟨s.scores.red, s.scores.blue + 1⟩,
    voteEvents := s.voteEvents ++ [⟨target, elapsed⟩],
    voteIgnoreMessage := none }

/-- `beginGameWithEndTime`: rejects `endSec <= startSec` (the
`Number.isFinite` test is vacuous over `Int`), otherwise installs a fresh
running round under `roundId`. -/
def beginGameWithEndTime (roundId : String) (startSec endSec : Int) (s : AppState) : AppState :=
  if endSec ≤ startSec then s
  else
    { s with
      currentRoundId := some roundId
      startTimeSec := some startSec
      endTimeSec := some endSec
      resolvedEndTimeSec := some endSec
      scores := ⟨0, 0⟩
      voteEvents := []
      timeRemaining := max 0 (endSec - startSec)
      gameState := .running
      incomingEndChange := none
      incomingEndNow := false
      infoMessage := none }

/-- `applyEndTimeUpdate`. -/
def applyEndTimeUpdate (newEndTimeSec : Int) (s : AppState) : AppState :=
  { s with endTimeSec := some newEndTimeSec, resolvedEndTimeSec := some newEndTimeSec }

/-- `applyImmediateEndLocal`: clears the timer, sets `endTime = now`,
`remaining = 0`, `state = ended`. -/
def applyImmediateEndLocal (nowSec : Int) (s : AppState) : AppState :=
  { s with
    endTimeSec := some nowSec
    resolvedEndTimeSec := some nowSec
    timeRemaining := 0
    gameState := .ended
    incomingEndNow := false }

/-- The `reason` argument of `ensureRoleFromSessionRoles`. -/
inductive RoleSyncReason
  | fallbackStart
  | voteMismatch
deriving DecidableEq, Repr

/-- The user-facing message chosen inside `ensureRoleFromSessionRoles`. -/
def roleSyncReasonMessage : RoleSyncReason → String
  | .voteMismatch => "角色未正确分配，已自动校正，请重试。"
  | .fallbackStart => "角色信息已根据对局数据自动校正。"

/-- `ensureRoleFromSessionRoles`: re-locks the local role to the side the
stored session roles dictate for the local connection orientation; no-op
when no session roles are stored. -/
def ensureRoleFromSessionRoles (reason : RoleSyncReason) (s : AppState) : AppState :=
  match s.sessionRoles with
  | none => s
  | some roles =>
    let expectedRole : Role :=
      match s.connectionMode with
      | .offer => roles.hostRole
      | .answer => roles.guestRole
    let s1 := { s with roleLocked := true }
    match s1.lockedRole with
    | none =>
      { s1 with
        roleSyncMessage := some (roleSyncReasonMessage reason)
        lockedRole := some expectedRole }
    | some prev =>
      if prev ≠ expectedRole then
        { s1 with
          roleSyncMessage := some (roleSyncReasonMessage reason)
          lockedRole := some expectedRole }
      else s1

/-- The SnapshotEvent built in `buildSnapshotFromState`:
`{ at: event.elapsed, target: event.target }`. -/
def voteToSnapEvent (e : VoteEvent) : SnapshotEvent :=
  ⟨e.elapsed, e.target⟩

/-- The VoteEvent rebuilt in `hydrateStateFromSnapshot`:
`{ target: event.target, elapsed: event.at }`. -/
def snapToVoteEvent (e : SnapshotEvent) : VoteEvent :=
  ⟨e.target, e.at_⟩

/-- `buildSnapshotFromState`: `null` when any of `currentRoundId`,
`startTimeSec`, `endTimeSec`, `lockedRole` is falsy or the game is idle;
otherwise the full serialization, with `version` taken from the version
counter and `lastUpdatedAt := Date.now()`. -/
def buildSnapshotFromState (nowMs : Int) (s : AppState) : Option GameSnapshot :=
  match s.currentRoundId, s.startTimeSec, s.endTimeSec, s.lockedRole with
  | some rid, some st, some et, some lr =>
    if rid = "" ∨ st = 0 ∨ et = 0 then none
    else if s.gameState = .idle then none
    else
      some
        { version := s.snapshotVersion
          lastUpdatedAt := nowMs
          gameId := rid
          sessionId := s.sessionId
          isHost := s.connectionMode = ConnectionMode.offer
          lockedRole := lr
          startTimeSec := st
          endTimeSec := et
          gameState := s.gameState
          scoreRed := s.scores.red
          scoreBlue := s.scores.blue
          events := s.voteEvents.map voteToSnapEvent }
  | _, _, _, _ => none

/-- `persistSnapshot`: assigns `version = lastPersistedVersion + 1` and a
fresh `lastUpdatedAt`, bumps the version counter and meta, and returns the
snapshot (the `localStorage` write is modelled as succeeding; on failure
the source swallows the exception). -/
def persistSnapshot (nowMs : Int) (s : AppState) : Option GameSnapshot × AppState :=
  match buildSnapshotFromState nowMs s with
  | none => (none, s)
  | some base =>
    let newVersion := s.snapshotVersion + 1
    let snap := { base with version := newVersion, lastUpdatedAt := nowMs }
    (some snap,
      { s with snapshotVersion := newVersion, snapshotMeta := some (newVersion, nowMs) })

/-- `hydrateStateFromSnapshot`: replaces all local Round+Session fields with
the snapshot's fields; `remaining` is recomputed from `endTimeSec` and the
local clock for running snapshots (`snapshot.version || 0` is the identity
over `Int` except at `0`, where it is also the identity). -/
def hydrateStateFromSnapshot (nowSec nowMs : Int) (snap : GameSnapshot) (offline : Bool)
    (s : AppState) : AppState :=
  let remaining : Int :=
    match snap.gameState with
    | .running => max 0 (snap.endTimeSec - nowSec)
    | _ => 0
  { s with
    currentRoundId := some snap.gameId
    currentGameId := some snap.gameId
    startTimeSec := some snap.startTimeSec
    endTimeSec := some snap.endTimeSec
    resolvedEndTimeSec := some snap.endTimeSec
    scores := ⟨snap.scoreRed, snap.scoreBlue⟩
    voteEvents := snap.events.map snapToVoteEvent
    timeRemaining := remaining
    gameState := snap.gameState
    lockedRole := some snap.lockedRole
    roleLocked := true
    sessionId := snap.sessionId
    snapshotVersion := snap.version
    snapshotMeta := some (snap.version, if snap.lastUpdatedAt = 0 then nowMs else snap.lastUpdatedAt)
    offlineSnapshotMode := if offline then true else s.offlineSnapshotMode
    storedGameIdHint := some snap.gameId
    historyViewSnapshot := none }

/-- The guard `currentRoundIdRef.current && currentRoundIdRef.current !== snapshot.gameId`
that drops a stateSnapshot for a different, already-active round. -/
def snapshotBlocked (cur : Option String) (gid : String) : Bool :=
  match cur with
  | none => false
  | some rid => if rid = "" then false else if rid = gid then false else true

/-- The guard `!currentRoundIdRef.current || msg.roundId !== currentRoundIdRef.current`
shared by the vote and negotiation branches (true = proceed). -/
def roundMatches (cur : Option String) (rid : String) : Bool :=
  match cur with
  | none => false
  | some r => if r = "" then false else r = rid

/-- `handleIncomingMessage`: the dispatcher over all received messages.
Only state mutations are modelled; the `assignRolesAck` reply sent in the
`assignRoles` branch and all storage/URL writes are external effects. -/
def handleIncomingMessage (nowSec nowMs : Int) (msg : Message) (s : AppState) : AppState :=
  match msg with
  | .start roundId endTime roles =>
    if endTime ≤ nowSec then s
    else
      let s1 :=
        match roles with
        | some r => ensureRoleFromSessionRoles .fallbackStart { s with sessionRoles := some r }
        | none => s
      let s2 :=
        { s1 with
          snapshotVersion := 0
          snapshotMeta := none
          offlineSnapshotMode := false
          currentGameId := some roundId
          storedGameIdHint := some roundId }
      beginGameWithEndTime roundId nowSec endTime s2
  | .stateSnapshot _ payload =>
    if payload.gameId = "" then s
    else if snapshotBlocked s.currentRoundId payload.gameId then s
    else
      { hydrateStateFromSnapshot nowSec nowMs payload false s with offlineSnapshotMode := false }
  | .vote roundId target at_ =>
    if roundMatches s.currentRoundId roundId = false then s
    else
      match s.lockedRole with
      | none => s
      | some localLockedRole =>
        if target ≠ localLockedRole then
          ensureRoleFromSessionRoles .voteMismatch
            { s with voteIgnoreMessage := some (roleSyncReasonMessage .voteMismatch) }
        else applyVote target at_ s
  | .assignRoles sid hostRole guestRole =>
    let myRole : Role :=
      match s.connectionMode with
      | .offer => hostRole
      | .answer => guestRole
    let syncMsg :=
      match s.lockedRole with
      | some prev =>
        if prev ≠ myRole then
          "你本地选择的是" ++ formatRoleLabel prev ++ "，已根据发起方方案调整为" ++
            formatRoleLabel myRole ++ "。"
        else "角色已锁定：" ++ formatRoleLabel myRole ++ "。"
      | none => "角色已锁定：" ++ formatRoleLabel myRole ++ "。"
    let s1 :=
      { s with
        sessionId := some sid
        sessionRoles := some ⟨hostRole, guestRole⟩
        roleLocked := true
        lockedRole := some myRole
        roleSyncMessage := some syncMsg }
    match s1.connectionMode with
    | .answer => { s1 with roleAssignmentNotice := some "角色分配完成，你的阵营已锁定。" }
    | .offer => s1
  | .assignRolesAck sid _ =>
    match s.sessionId with
    | none => s
    | some cur =>
      if cur = "" then s
      else if sid ≠ cur then s
      else
        { s with
          rolesConfirmed := true
          roleAssignmentNotice := some "角色分配完成，双方阵营已同步。" }
  | .proposeEndChange roundId proposedEndTime =>
    if roundMatches s.currentRoundId roundId = false then s
    else { s with incomingEndChange := some proposedEndTime }
  | .acceptEndChange roundId proposedEndTime =>
    if roundMatches s.currentRoundId roundId = false then s
    else
      { applyEndTimeUpdate proposedEndTime s with
        infoMessage := some "对方已同意修改结束时间，已同步更新。" }
  | .rejectEndChange roundId _ =>
    if roundMatches s.currentRoundId roundId = false then s
    else { s with infoMessage := some "对方拒绝了本次结束时间修改，本局保持原结束时间。" }
  | .proposeEndNow roundId =>
    if roundMatches s.currentRoundId roundId = false then s
    else { s with incomingEndNow := true }
  | .acceptEndNow roundId =>
    if roundMatches s.currentRoundId roundId = false then s
    else
      { applyImmediateEndLocal nowSec s with
        infoMessage := some "对方已同意立即结束，本局已结束。" }
  | .rejectEndNow roundId =>
    if roundMatches s.currentRoundId roundId = false then s
    else { s with infoMessage := some "对方拒绝立即结束，本局继续进行。" }

/-- The recurring `updateRemaining` tick: active only while `endTimeSec` is
truthy and the game is running; transitions to `ended` the instant
`remaining <= 0`. -/
def tick (nowSec : Int) (s : AppState) : AppState :=
  match s.endTimeSec with
  | none => s
  | some et =>
    if et = 0 then s
    else if s.gameState ≠ .running then s
    else if et - nowSec ≤ 0 then { s with timeRemaining := 0, gameState := .ended }
    else { s with timeRemaining := et - nowSec }

/-- `handleVote`, the local vote click: refuses (setting a user-visible
error) outside a connected, running round; otherwise applies the vote
locally and returns the `vote` message it sends to the peer. -/
def handleVote (nowSec : Int) (s : AppState) : AppState × Option Message :=
  if s.historyViewSnapshot.isSome then
    ({ s with error := some "当前正在查看历史对局（只读），无法投票，请先返回当前会话。" }, none)
  else
    match s.lockedRole with
    | none => ({ s with error := some "角色尚未锁定，请先在步骤 1 中选择阵营。" }, none)
    | some lockedRole =>
      if s.connectionStatus ≠ .connected then
        ({ s with error := some "连接尚未建立，无法投票。" }, none)
      else
        match s.gameState, s.startTimeSec, s.currentRoundId with
        | .running, some st, some rid =>
          if st = 0 ∨ rid = "" then
            ({ s with error := some "本局尚未开始或已经结束，无法继续投票。" }, none)
          else
            let elapsed := max 0 (nowSec - st)
            let target := oppositeRole lockedRole
            (applyVote target elapsed s, some (.vote rid target elapsed))
        | _, _, _ =>
          ({ s with error := some "本局尚未开始或已经结束，无法继续投票。" }, none)

/-- The state of the `assignRoles` retry loop (lines 949-999 of the
source): `sendCount` counts the `assignRoles` messages actually sent for
this session attempt, `retryCount` is `assignRolesRetryCountRef`,
`rolesConfirmed` is `rolesConfirmedRef`, `channelOpen` is
`dataChannel.readyState === 'open'`, and `timerPending` records whether
`assignRolesRetryTimerRef` holds a live timeout. -/
structure RetryState where
  sendCount : Nat
  retryCount : Nat
  rolesConfirmed : Bool
  channelOpen : Bool
  timerPending : Bool
deriving DecidableEq, Repr

/-- The events that can reach the retry loop: the 2-time-unit timeout
firing, a matching `assignRolesAck` arriving (its handler sets
`rolesConfirmedRef` and clears the timer), and the channel closing. -/
inductive RetryEvent
  | timerFire
  | ackMatch
  | channelClose
deriving DecidableEq, Repr

/-- State right after the connected-offer effect body ran: one initial
`sendAssignRolesOnce` succeeded, `assignRolesRetryCountRef.current = 1`,
and `scheduleRetry()` armed the timer. -/
def retryInit : RetryState :=
  ⟨1, 1, false, true, true⟩

/-- One step of the retry loop.  `timerFire` mirrors the `scheduleRetry`
timeout body: stop when already confirmed, when `retryCount >= 3`, or when
the channel is not open (in which case `sendAssignRolesOnce` also returns
`false`); otherwise send again, bump the counter and re-arm. -/
def retryStep (s : RetryState) (e : RetryEvent) : RetryState :=
  match e with
  | .timerFire =>
    if s.timerPending = false then s
    else
      let s1 := { s with timerPending := false }
      if s1.rolesConfirmed then s1
      else if 3 ≤ s1.retryCount then s1
      else if s1.channelOpen = false then s1
      else
        { s1 with
          sendCount := s1.sendCount + 1
          retryCount := s1.retryCount + 1
          timerPending := true }
  | .ackMatch => { s with rolesConfirmed := true, timerPending := false }
  | .channelClose => { s with channelOpen := false }

/-- Run the retry loop from its initial state over a list of events. -/
def retryRun (evs : List RetryEvent) : RetryState :=
  evs.foldl retryStep retryInit

/-- The sort order of the history index: `endTime` descending, ties broken
by `lastUpdatedAt` descending (the JS comparator
`b.endTimeSec - a.endTimeSec || b.lastUpdatedAt - a.lastUpdatedAt`). -/
def histLE (a b : HistoryIndexEntry) : Prop :=
  b.endTimeSec < a.endTimeSec ∨
    (b.endTimeSec = a.endTimeSec ∧ b.lastUpdatedAt ≤ a.lastUpdatedAt)

instance : DecidableRel histLE := fun a b => by
  unfold histLE
  exact inferInstance

instance : IsTotal HistoryIndexEntry histLE :=
  ⟨fun a b => by unfold histLE; omega⟩

instance : IsTrans HistoryIndexEntry histLE :=
  ⟨fun a b c hab hbc => by unfold histLE at hab hbc ⊢; omega⟩

/-- Replace the (first) entry with the same `gameId`, or append at the end:
the `findIndex`/assignment/`push` sequence in `upsertHistoryIndex`. -/
def upsertEntry (e : HistoryIndexEntry) : List HistoryIndexEntry → List HistoryIndexEntry
  | [] => [e]
  | x :: xs => if x.gameId = e.gameId then e :: xs else x :: upsertEntry e xs

/-- `upsertHistoryIndex`: no-op unless the snapshot is `ended`; otherwise
replace-or-insert the entry for `roundId` and re-sort.  The JS
`Array.prototype.sort` with the descending comparator is modelled by
`List.insertionSort histLE`; the claim-relevant facts (the result is a
permutation, sorted for the comparator) hold for any comparator sort. -/
def upsertHistoryIndex (snap : GameSnapshot) (idx : List HistoryIndexEntry) :
    List HistoryIndexEntry :=
  if snap.gameState ≠ .ended then idx
  else
    let entry : HistoryIndexEntry :=
      { gameId := snap.gameId
        startTimeSec := snap.startTimeSec
        endTimeSec := snap.endTimeSec
        scoreRed := snap.scoreRed
        scoreBlue := snap.scoreBlue
        lastUpdatedAt := snap.lastUpdatedAt }
    List.insertionSort histLE (upsertEntry entry idx)

/-- The two operations that mutate the history index: `upsertHistoryIndex`
(from an ended-round snapshot) and `handleDeleteHistoryGame`'s filter. -/
inductive HistOp
  | upsert (snap : GameSnapshot)
  | remove (gameId : String)

/-- Apply one history-index operation. -/
def applyHistOp (idx : List HistoryIndexEntry) : HistOp → List HistoryIndexEntry
  | .upsert snap => upsertHistoryIndex snap idx
  | .remove gid => idx.filter (fun item => item.gameId ≠ gid)

/-- Run a sequence of history-index operations from the empty index. -/
def runHistOps (ops : List HistOp) : List HistoryIndexEntry :=
  ops.foldl applyHistOp []

/-- Iterate `persistSnapshot` `n` times, collecting the versions of the
snapshots it returns. -/
def persistRun (nowMs : Int) : Nat → AppState → AppState × List Int
  | 0, s => (s, [])
  | n + 1, s =>
    let p := persistSnapshot nowMs s
    let r := persistRun nowMs n p.2
    match p.1 with
    | some snap => (r.1, snap.version :: r.2)
    | none => r

/-- The fields `buildSnapshotFromState` requires to be truthy, plus a
non-idle game: exactly the condition under which `persistSnapshot`
produces a snapshot. -/
def snapshotReady (s : AppState) : Prop :=
  (∃ rid, s.currentRoundId = some rid ∧ rid ≠ "") ∧
    (∃ st, s.startTimeSec = some st ∧ st ≠ 0) ∧
    (∃ et, s.endTimeSec = some et ∧ et ≠ 0) ∧
    (∃ lr, s.lockedRole = some lr) ∧
    s.gameState ≠ .idle

/-- Binder-free statement that hydrating the snapshot returned by
`persistSnapshot` restores every Round/Session field of the pre-persist
state `s` (roundId, start/end time, state, scores, vote log, locked role,
sessionId); `False` when persist returns nothing. -/
def persistHydrateRestores (nowMs nowSec2 nowMs2 : Int) (s : AppState) : Prop :=
  match persistSnapshot nowMs s with
  | (none, _) => False
  | (some snap, s1) =>
    let s2 := hydrateStateFromSnapshot nowSec2 nowMs2 snap false s1
    s2.currentRoundId = s.currentRoundId ∧
      s2.startTimeSec = s.startTimeSec ∧
      s2.endTimeSec = s.endTimeSec ∧
      s2.gameState = s.gameState ∧
      s2.scores = s.scores ∧
      s2.voteEvents = s.voteEvents ∧
      s2.lockedRole = s.lockedRole ∧
      s2.sessionId = s.sessionId

/-- A reachable running round: the host (offer side) receives
`assignRoles` and then a `start` for round `"r1"` with window `[100, 700]`. -/
def exRunning : AppState :=
  handleIncomingMessage 100 100000 (.start "r1" 700 none)
    (handleIncomingMessage 50 50000 (.assignRoles "sess1" .red .blue) initialAppState)

/-- `exRunning` after a negotiated immediate end at time 200: an ended
round that still carries roundId `"r1"`. -/
def exEnded : AppState :=
  handleIncomingMessage 200 200000 (.acceptEndNow "r1") exRunning

/-- A peer-pushed snapshot of the same round `"r1"` still in state
`running` (the pusher's clock has not passed the end time yet). -/
def staleRunningSnapshot : GameSnapshot :=
  { version := 5
    lastUpdatedAt := 300000
    gameId := "r1"
    sessionId := some "sess1"
    isHost := true
    lockedRole := .blue
    startTimeSec := 100
    endTimeSec := 700
    gameState := .running
    scoreRed := 0
    scoreBlue := 0
    events := [] }

/-- Rank of a game state in the lifecycle order `idle < running < ended`. -/
def stateRank : GameState → Nat
  | .idle => 0
  | .running => 1
  | .ended => 2

/-- Messages whose handler replaces the current round wholesale (installs a
fresh round / adopts a pushed snapshot) rather than evolving it. -/
def isRoundReplacing : Message → Bool
  | .start .. => true
  | .stateSnapshot .. => true
  | _ => false

/-- Score of a role in a Scores record. -/
def scoreOf : Role → Scores → Int
  | .red, sc => sc.red
  | .blue, sc => sc.blue

/-- `ensureRoleFromSessionRoles` only rewrites the role fields: round
identity, game state, scores, vote log and the vote-ignore notice are
untouched. -/
theorem ensureRole_preserves (r : RoleSyncReason) (t : AppState) :
    (ensureRoleFromSessionRoles r t).scores = t.scores ∧
      (ensureRoleFromSessionRoles r t).voteEvents = t.voteEvents ∧
      (ensureRoleFromSessionRoles r t).voteIgnoreMessage = t.voteIgnoreMessage ∧
      (ensureRoleFromSessionRoles r t).gameState = t.gameState ∧
      (ensureRoleFromSessionRoles r t).currentRoundId = t.currentRoundId := by
  unfold ensureRoleFromSessionRoles
  split
  · exact ⟨rfl, rfl, rfl, rfl, rfl⟩
  · dsimp only
    split
    · exact ⟨rfl, rfl, rfl, rfl, rfl⟩
    · split <;> exact ⟨rfl, rfl, rfl, rfl, rfl⟩

/-- The round-match guard succeeds exactly on the current non-empty id. -/
theorem roundMatches_self (rid : String) (hrid : rid ≠ "") :
    roundMatches (some rid) rid = true := by
  unfold roundMatches
  simp [hrid]

/-- C1: for every received start message whose endTime is strictly greater
than the current time, after the handler runs the round state is `running`,
startTime equals the receiver's current local time, the remaining time
equals `endTime - now`, both scores are zero, the vote log is empty, and
the current roundId equals the message's roundId. -/
theorem start_message_installs_fresh_round (s : AppState) (nowSec nowMs : Int)
    (roundId : String) (endTime : Int) (roles : Option SessionRoles)
    (h : nowSec < endTime) :
    (handleIncomingMessage nowSec nowMs (.start roundId endTime roles) s).gameState = .running ∧
      (handleIncomingMessage nowSec nowMs (.start roundId endTime roles) s).startTimeSec =
        some nowSec ∧
      (handleIncomingMessage nowSec nowMs (.start roundId endTime roles) s).timeRemaining =
        endTime - nowSec ∧
      (handleIncomingMessage nowSec nowMs (.start roundId endTime roles) s).scores = ⟨0, 0⟩ ∧
      (handleIncomingMessage nowSec nowMs (.start roundId endTime roles) s).voteEvents = [] ∧
      (handleIncomingMessage nowSec nowMs (.start roundId endTime roles) s).currentRoundId =
        some roundId := by
  have hng : ¬ endTime ≤ nowSec := by omega
  cases roles <;>
    simp [handleIncomingMessage, beginGameWithEndTime, hng] <;>
    omega

/-- Witness for C1 at a concrete input. -/
theorem start_message_installs_fresh_round_witness :
    (100 : Int) < 700 ∧
      ((handleIncomingMessage 100 100000 (.start "r1" 700 none) initialAppState).gameState =
          .running ∧
        (handleIncomingMessage 100 100000 (.start "r1" 700 none) initialAppState).startTimeSec =
          some 100 ∧
        (handleIncomingMessage 100 100000 (.start "r1" 700 none) initialAppState).timeRemaining =
          600 ∧
        (handleIncomingMessage 100 100000 (.start "r1" 700 none) initialAppState).scores =
          ⟨0, 0⟩ ∧
        (handleIncomingMessage 100 100000 (.start "r1" 700 none) initialAppState).voteEvents =
          [] ∧
        (handleIncomingMessage 100 100000 (.start "r1" 700 none) initialAppState).currentRoundId =
          some "r1") :=
  ⟨by decide,
    start_message_installs_fresh_round initialAppState 100 100000 "r1" 700 none (by decide)⟩

/-- C6: a received start whose endTime is not in the future, and a received
vote whose roundId differs from the current roundId, perform no state
mutation at all. -/
theorem stale_start_and_foreign_vote_are_noops (s : AppState) (nowSec nowMs : Int)
    (roundId : String) (endTime : Int) (roles : Option SessionRoles)
    (target : Role) (at_ : Int)
    (hend : endTime ≤ nowSec)
    (hvote : ∀ r, s.currentRoundId = some r → r ≠ roundId) :
    handleIncomingMessage nowSec nowMs (.start roundId endTime roles) s = s ∧
      handleIncomingMessage nowSec nowMs (.vote roundId target at_) s = s := by
  constructor
  · simp [handleIncomingMessage, hend]
  · have hm : roundMatches s.currentRoundId roundId = false := by
      unfold roundMatches
      cases hc : s.currentRoundId with
      | none => rfl
      | some r =>
        have hne := hvote r hc
        by_cases hre : r = "" <;> simp [hre, hne]
    simp [handleIncomingMessage, hm]

/-- Witness for C6 at concrete inputs. -/
theorem stale_start_and_foreign_vote_are_noops_witness :
    (50 : Int) ≤ 100 ∧
      (handleIncomingMessage 100 100000 (.start "r9" 50 none) exRunning = exRunning ∧
        handleIncomingMessage 100 100000 (.vote "r9" .red 7) exRunning = exRunning) :=
  ⟨by decide,
    stale_start_and_foreign_vote_are_noops exRunning 100 100000 "r9" 50 none .red 7
      (by decide) (fun r hr => by
        have : r = "r1" := by
          have h1 : exRunning.currentRoundId = some "r1" := rfl
          rw [h1] at hr
          exact (Option.some_injective _ hr).symm
        rw [this]
        decide)⟩

/-- C7: a vote for the current round whose target differs from the
receiver's locked role is rejected: scores and vote log unchanged, the
user-visible resync notice is set, and the handler runs the role-resync
(`ensureRoleFromSessionRoles` with reason `vote-mismatch`) on the state. -/
theorem mismatched_vote_rejected_with_resync (s : AppState) (nowSec nowMs at_ : Int)
    (rid : String) (target lockedRole : Role)
    (hcur : s.currentRoundId = some rid) (hrid : rid ≠ "")
    (hlock : s.lockedRole = some lockedRole) (hne : target ≠ lockedRole) :
    (handleIncomingMessage nowSec nowMs (.vote rid target at_) s).scores = s.scores ∧
      (handleIncomingMessage nowSec nowMs (.vote rid target at_) s).voteEvents = s.voteEvents ∧
      (handleIncomingMessage nowSec nowMs (.vote rid target at_) s).voteIgnoreMessage =
        some "角色未正确分配，已自动校正，请重试。" ∧
      handleIncomingMessage nowSec nowMs (.vote rid target at_) s =
        ensureRoleFromSessionRoles .voteMismatch
          { s with voteIgnoreMessage := some "角色未正确分配，已自动校正，请重试。" } := by
  have hm := roundMatches_self rid hrid
  have hstep :
      handleIncomingMessage nowSec nowMs (.vote rid target at_) s =
        ensureRoleFromSessionRoles .voteMismatch
          { s with voteIgnoreMessage := some "角色未正确分配，已自动校正，请重试。" } := by
    simp [handleIncomingMessage, hcur, hm, hlock, hne, roleSyncReasonMessage]
  obtain ⟨h1, h2, h3, -, -⟩ :=
    ensureRole_preserves .voteMismatch
      { s with voteIgnoreMessage := some "角色未正确分配，已自动校正，请重试。" }
  rw [hstep, h1, h2, h3]
  exact ⟨rfl, rfl, rfl, rfl⟩

/-- Witness for C7 at a concrete input. -/
theorem mismatched_vote_rejected_with_resync_witness :
    exRunning.currentRoundId = some "r1" ∧ exRunning.lockedRole = some Role.red ∧
      ((handleIncomingMessage 150 150000 (.vote "r1" .blue 50) exRunning).scores =
          exRunning.scores ∧
        (handleIncomingMessage 150 150000 (.vote "r1" .blue 50) exRunning).voteEvents =
          exRunning.voteEvents ∧
        (handleIncomingMessage 150 150000 (.vote "r1" .blue 50) exRunning).voteIgnoreMessage =
          some "角色未正确分配，已自动校正，请重试。" ∧
        handleIncomingMessage 150 150000 (.vote "r1" .blue 50) exRunning =
          ensureRoleFromSessionRoles .voteMismatch
            { exRunning with
              voteIgnoreMessage := some "角色未正确分配，已自动校正，请重试。" }) :=
  ⟨rfl, rfl,
    mismatched_vote_rejected_with_resync exRunning 150 150000 50 "r1" .blue .red rfl
      (by decide) rfl (by decide)⟩

/-- C8: a received stateSnapshot for a different, already-active roundId is
dropped with no local change; when the snapshot's roundId matches the
current round, or no round is active, it is fully adopted through hydrate,
replacing every Round/Session field with the snapshot's fields. -/
theorem snapshot_drop_or_full_adoption (s : AppState) (nowSec nowMs : Int)
    (rid : String) (snap : GameSnapshot) (hgid : snap.gameId ≠ "") :
    (∀ r, s.currentRoundId = some r → r ≠ "" → r ≠ snap.gameId →
        handleIncomingMessage nowSec nowMs (.stateSnapshot rid snap) s = s) ∧
      ((s.currentRoundId = none ∨ s.currentRoundId = some snap.gameId) →
        (handleIncomingMessage nowSec nowMs (.stateSnapshot rid snap) s).currentRoundId =
            some snap.gameId ∧
          (handleIncomingMessage nowSec nowMs (.stateSnapshot rid snap) s).startTimeSec =
            some snap.startTimeSec ∧
          (handleIncomingMessage nowSec nowMs (.stateSnapshot rid snap) s).endTimeSec =
            some snap.endTimeSec ∧
          (handleIncomingMessage nowSec nowMs (.stateSnapshot rid snap) s).gameState =
            snap.gameState ∧
          (handleIncomingMessage nowSec nowMs (.stateSnapshot rid snap) s).scores =
            ⟨snap.scoreRed, snap.scoreBlue⟩ ∧
          (handleIncomingMessage nowSec nowMs (.stateSnapshot rid snap) s).voteEvents =
            snap.events.map snapToVoteEvent ∧
          (handleIncomingMessage nowSec nowMs (.stateSnapshot rid snap) s).lockedRole =
            some snap.lockedRole ∧
          (handleIncomingMessage nowSec nowMs (.stateSnapshot rid snap) s).sessionId =
            snap.sessionId ∧
          (handleIncomingMessage nowSec nowMs (.stateSnapshot rid snap) s).snapshotVersion =
            snap.version) := by
  constructor
  · intro r hc hr hne
    have hb : snapshotBlocked s.currentRoundId snap.gameId = true := by
      rw [hc]
      unfold snapshotBlocked
      simp [hr, hne]
    simp [handleIncomingMessage, hgid, hb]
  · intro hc
    have hb : snapshotBlocked s.currentRoundId snap.gameId = false := by
      rcases hc with hc | hc <;> rw [hc] <;> unfold snapshotBlocked <;> simp
    simp [handleIncomingMessage, hgid, hb, hydrateStateFromSnapshot]

/-- Witness for C8: the drop branch at a foreign round and the adoption
branch on the same concrete snapshot. -/
theorem snapshot_drop_or_full_adoption_witness :
    staleRunningSnapshot.gameId = "r1" ∧ exRunning.currentRoundId = some "r1" ∧
      (handleIncomingMessage 300 300000
          (.stateSnapshot "r2" { staleRunningSnapshot with gameId := "r2" }) exRunning =
        exRunning) ∧
      (handleIncomingMessage 300 300000 (.stateSnapshot "r1" staleRunningSnapshot)
            exRunning).lockedRole =
        some Role.blue :=
  ⟨rfl, rfl,
    (snapshot_drop_or_full_adoption exRunning 300 300000 "r2"
          { staleRunningSnapshot with gameId := "r2" } (by decide)).1
      "r1" rfl (by decide) (by decide),
    ((snapshot_drop_or_full_adoption exRunning 300 300000 "r1" staleRunningSnapshot
          (by decide)).2
        (Or.inr rfl)).2.2.2.2.2.2.1⟩

/-- C10 (implicit): a received vote for the current round whose target is
the receiver's locked role is applied regardless of the round's state
(the handler performs no `gameState` check, so this holds even for an
ended round), while the local vote click refuses whenever the state is not
`running` (scores and log unchanged, nothing sent). -/
theorem incoming_vote_ignores_round_state_local_vote_requires_running
    (s t : AppState) (nowSec nowMs at_ : Int) (rid : String) (lockedRole : Role)
    (hcur : s.currentRoundId = some rid) (hrid : rid ≠ "")
    (hlock : s.lockedRole = some lockedRole)
    (ht : t.gameState ≠ .running) :
    (handleIncomingMessage nowSec nowMs (.vote rid lockedRole at_) s =
        applyVote lockedRole at_ s ∧
      (handleIncomingMessage nowSec nowMs (.vote rid lockedRole at_) s).gameState =
        s.gameState ∧
      scoreOf lockedRole (handleIncomingMessage nowSec nowMs (.vote rid lockedRole at_) s).scores =
        scoreOf lockedRole s.scores + 1 ∧
      (handleIncomingMessage nowSec nowMs (.vote rid lockedRole at_) s).voteEvents =
        s.voteEvents ++ [⟨lockedRole, at_⟩]) ∧
      ((handleVote nowSec t).1.scores = t.scores ∧
        (handleVote nowSec t).1.voteEvents = t.voteEvents ∧
        (handleVote nowSec t).2 = none) := by
  constructor
  · have hm := roundMatches_self rid hrid
    have happ :
        handleIncomingMessage nowSec nowMs (.vote rid lockedRole at_) s =
          applyVote lockedRole at_ s := by
      simp [handleIncomingMessage, hcur, hm, hlock]
    refine ⟨happ, ?_, ?_, ?_⟩ <;> rw [happ] <;> cases lockedRole <;> simp [applyVote, scoreOf]
  · unfold handleVote
    split
    · exact ⟨rfl, rfl, rfl⟩
    · split
      · exact ⟨rfl, rfl, rfl⟩
      · split
        · exact ⟨rfl, rfl, rfl⟩
        · split
          · next hg _ _ => exact absurd hg ht
          · exact ⟨rfl, rfl, rfl⟩

/-- Witness for C10: incoming vote applied on the concrete ended round,
local vote refused there. -/
theorem incoming_vote_ignores_round_state_local_vote_requires_running_witness :
    exEnded.gameState = GameState.ended ∧ exEnded.lockedRole = some Role.red ∧
      ((handleIncomingMessage 250 250000 (.vote "r1" .red 150) exEnded =
          applyVote .red 150 exEnded ∧
        (handleIncomingMessage 250 250000 (.vote "r1" .red 150) exEnded).gameState =
          exEnded.gameState ∧
        scoreOf .red (handleIncomingMessage 250 250000 (.vote "r1" .red 150) exEnded).scores =
          scoreOf .red exEnded.scores + 1 ∧
        (handleIncomingMessage 250 250000 (.vote "r1" .red 150) exEnded).voteEvents =
          exEnded.voteEvents ++ [⟨.red, 150⟩]) ∧
        ((handleVote 250 exEnded).1.scores = exEnded.scores ∧
          (handleVote 250 exEnded).1.voteEvents = exEnded.voteEvents ∧
          (handleVote 250 exEnded).2 = none)) :=
  ⟨rfl, rfl,
    incoming_vote_ignores_round_state_local_vote_requires_running exEnded exEnded
      250 250000 150 "r1" .red rfl (by decide) rfl (by decide)⟩

/-- Counterexample to C4 as stated: from the reachable ended round
`exEnded` (roundId `"r1"`, state `ended`), the received
`stateSnapshot{roundId:"r1"}` carrying a `running` payload is hydrated and
takes the very same round back to `running` — an ended→running transition
with no roundId replacement. -/
theorem ended_round_revived_by_same_round_snapshot :
    exEnded.gameState = GameState.ended ∧
      exEnded.currentRoundId = some "r1" ∧
      (handleIncomingMessage 300 300000 (.stateSnapshot "r1" staleRunningSnapshot)
            exEnded).gameState =
        GameState.running ∧
      (handleIncomingMessage 300 300000 (.stateSnapshot "r1" staleRunningSnapshot)
            exEnded).currentRoundId =
        some "r1" :=
  ⟨rfl, rfl, rfl, rfl⟩

/-- C4 as amended: for every handled event other than a received `start`
or `stateSnapshot` message — both of which replace the round wholesale and
may re-use the current roundId — the round state never moves backward in
the order idle < running < ended: every other received message, the timer
tick and the local vote click leave the state rank non-decreasing. -/
theorem state_monotonic_outside_round_replacement (s : AppState) (nowSec nowMs : Int)
    (msg : Message) (h : isRoundReplacing msg = false) :
    stateRank s.gameState ≤
        stateRank (handleIncomingMessage nowSec nowMs msg s).gameState ∧
      stateRank s.gameState ≤ stateRank (tick nowSec s).gameState ∧
      (handleVote nowSec s).1.gameState = s.gameState := by
  have hrank : ∀ g : GameState, stateRank g ≤ 2 := by
    intro g
    cases g <;> simp [stateRank]
  refine ⟨?_, ?_, ?_⟩
  · cases msg with
    | start _ _ _ => simp [isRoundReplacing] at h
    | stateSnapshot _ _ => simp [isRoundReplacing] at h
    | vote roundId target at_ =>
      simp only [handleIncomingMessage]
      split
      · exact le_refl _
      · split
        · exact le_refl _
        · split
          · obtain ⟨-, -, -, hg, -⟩ := ensureRole_preserves .voteMismatch
              { s with voteIgnoreMessage := some (roleSyncReasonMessage .voteMismatch) }
            rw [hg]
          · exact le_refl _
    | assignRoles sid hostRole guestRole =>
      simp only [handleIncomingMessage]
      split <;> exact le_refl _
    | assignRolesAck sid myRole =>
      simp only [handleIncomingMessage]
      split
      · exact le_refl _
      · split
        · exact le_refl _
        · split <;> exact le_refl _
    | proposeEndChange roundId p =>
      simp only [handleIncomingMessage]
      split <;> exact le_refl _
    | acceptEndChange roundId p =>
      simp only [handleIncomingMessage]
      split <;> exact le_refl _
    | rejectEndChange roundId p =>
      simp only [handleIncomingMessage]
      split <;> exact le_refl _
    | proposeEndNow roundId =>
      simp only [handleIncomingMessage]
      split <;> exact le_refl _
    | acceptEndNow roundId =>
      simp only [handleIncomingMessage]
      split
      · exact le_refl _
      · exact hrank _
    | rejectEndNow roundId =>
      simp only [handleIncomingMessage]
      split <;> exact le_refl _
  · unfold tick
    split
    · exact le_refl _
    · split
      · exact le_refl _
      · split
        · exact le_refl _
        · split
          · next hrun _ =>
            have : s.gameState = .running := by
              by_contra hcon
              exact hrun hcon
            rw [this]
            exact hrank _
          · exact le_refl _
  · unfold handleVote
    split
    · rfl
    · split
      · rfl
      · split
        · rfl
        · split
          · split
            · rfl
            · simp [applyVote]
          · rfl

/-- Witness for C4's amended theorem at a concrete non-replacing event. -/
theorem state_monotonic_outside_round_replacement_witness :
    isRoundReplacing (.acceptEndNow "r1") = false ∧
      (stateRank exRunning.gameState ≤
          stateRank (handleIncomingMessage 200 200000 (.acceptEndNow "r1")
              exRunning).gameState ∧
        stateRank exRunning.gameState ≤ stateRank (tick 200 exRunning).gameState ∧
        (handleVote 200 exRunning).1.gameState = exRunning.gameState) :=
  ⟨rfl,
    state_monotonic_outside_round_replacement exRunning 200 200000 (.acceptEndNow "r1")
      (by decide)⟩

/-- Counterexample to C5 as stated: on the reachable running round
`exRunning` (startTime 100, endTime 700), the received
`acceptEndChange{roundId:"r1", proposedEndTime:50}` is applied without any
validation and leaves `endTime = 50 < 100 = startTime`; likewise
`acceptEndNow` received at `now = 100` sets `endTime = 100 = startTime`,
breaking strictness. -/
theorem acceptEndChange_and_endNow_break_time_invariant :
    (exRunning.gameState = GameState.running ∧
        exRunning.startTimeSec = some 100 ∧ exRunning.endTimeSec = some 700 ∧
        (handleIncomingMessage 150 150000 (.acceptEndChange "r1" 50) exRunning).startTimeSec =
          some 100 ∧
        (handleIncomingMessage 150 150000 (.acceptEndChange "r1" 50) exRunning).endTimeSec =
          some 50) ∧
      ((handleIncomingMessage 100 100000 (.acceptEndNow "r1") exRunning).gameState =
          GameState.ended ∧
        (handleIncomingMessage 100 100000 (.acceptEndNow "r1") exRunning).startTimeSec =
          some 100 ∧
        (handleIncomingMessage 100 100000 (.acceptEndNow "r1") exRunning).endTimeSec =
          some 100) :=
  ⟨⟨rfl, rfl, rfl, rfl, rfl⟩, ⟨rfl, rfl, rfl⟩⟩

/-- C5 as amended: `endTime > startTime` is established by
`beginGameWithEndTime` (which rejects `endSec ≤ startSec`); applying a
received `acceptEndChange` preserves it provided the message's
`proposedEndTime` exceeds the round's startTime, and applying an accepted
immediate end preserves it provided `now` exceeds the startTime — the
handlers themselves perform no such validation. -/
theorem endTime_after_startTime_establishment_and_guarded_preservation
    (s : AppState) (nowSec nowMs st et proposed : Int) (rid : String)
    (hbegin : st < et)
    (hcur : s.currentRoundId = some rid) (hrid : rid ≠ "")
    (hst : s.startTimeSec = some st)
    (hprop : st < proposed) (hnow : st < nowSec) :
    ((beginGameWithEndTime rid st et s).startTimeSec = some st ∧
        (beginGameWithEndTime rid st et s).endTimeSec = some et ∧ st < et) ∧
      ((handleIncomingMessage nowSec nowMs (.acceptEndChange rid proposed) s).startTimeSec =
          some st ∧
        (handleIncomingMessage nowSec nowMs (.acceptEndChange rid proposed) s).endTimeSec =
          some proposed ∧
        st < proposed) ∧
      ((handleIncomingMessage nowSec nowMs (.acceptEndNow rid) s).startTimeSec = some st ∧
        (handleIncomingMessage nowSec nowMs (.acceptEndNow rid) s).endTimeSec = some nowSec ∧
        st < nowSec) := by
  have hm := roundMatches_self rid hrid
  have hng : ¬ et ≤ st := by omega
  refine ⟨⟨?_, ?_, hbegin⟩, ⟨?_, ?_, hprop⟩, ⟨?_, ?_, hnow⟩⟩ <;>
    simp [beginGameWithEndTime, handleIncomingMessage, applyEndTimeUpdate,
      applyImmediateEndLocal, hng, hcur, hm, hst]

/-- Witness for C5's amended theorem at concrete inputs. -/
theorem endTime_after_startTime_establishment_and_guarded_preservation_witness :
    ((beginGameWithEndTime "r1" 100 700 exRunning).startTimeSec = some 100 ∧
        (beginGameWithEndTime "r1" 100 700 exRunning).endTimeSec = some 700 ∧
        (100 : Int) < 700) ∧
      ((handleIncomingMessage 150 150000 (.acceptEndChange "r1" 300) exRunning).startTimeSec =
          some 100 ∧
        (handleIncomingMessage 150 150000 (.acceptEndChange "r1" 300) exRunning).endTimeSec =
          some 300 ∧
        (100 : Int) < 300) ∧
      ((handleIncomingMessage 150 150000 (.acceptEndNow "r1") exRunning).startTimeSec =
          some 100 ∧
        (handleIncomingMessage 150 150000 (.acceptEndNow "r1") exRunning).endTimeSec =
          some 150 ∧
        (100 : Int) < 150) :=
  endTime_after_startTime_establishment_and_guarded_preservation exRunning 150 150000
    100 700 300 "r1" (by decide) rfl (by decide) rfl (by decide) (by decide)

/-- Evaluation of `buildSnapshotFromState` when all guarded fields are
truthy and the game is not idle. -/
theorem buildSnapshot_eq (nowMs : Int) (s : AppState) (rid : String) (st et : Int)
    (lr : Role)
    (hc : s.currentRoundId = some rid) (hr : rid ≠ "")
    (hs : s.startTimeSec = some st) (hs0 : st ≠ 0)
    (he : s.endTimeSec = some et) (he0 : et ≠ 0)
    (hl : s.lockedRole = some lr) (hg : s.gameState ≠ .idle) :
    buildSnapshotFromState nowMs s =
      some
        { version := s.snapshotVersion
          lastUpdatedAt := nowMs
          gameId := rid
          sessionId := s.sessionId
          isHost := s.connectionMode = ConnectionMode.offer
          lockedRole := lr
          startTimeSec := st
          endTimeSec := et
          gameState := s.gameState
          scoreRed := s.scores.red
          scoreBlue := s.scores.blue
          events := s.voteEvents.map voteToSnapEvent } := by
  unfold buildSnapshotFromState
  rw [hc, hs, he, hl]
  simp [hr, hs0, he0, hg]

/-- Evaluation of `persistSnapshot` on a ready state: the returned snapshot
carries `version = old + 1`, and only the version counter and meta change
in the state. -/
theorem persistSnapshot_eq (nowMs : Int) (s : AppState) (rid : String) (st et : Int)
    (lr : Role)
    (hc : s.currentRoundId = some rid) (hr : rid ≠ "")
    (hs : s.startTimeSec = some st) (hs0 : st ≠ 0)
    (he : s.endTimeSec = some et) (he0 : et ≠ 0)
    (hl : s.lockedRole = some lr) (hg : s.gameState ≠ .idle) :
    persistSnapshot nowMs s =
      (some
        { version := s.snapshotVersion + 1
          lastUpdatedAt := nowMs
          gameId := rid
          sessionId := s.sessionId
          isHost := s.connectionMode = ConnectionMode.offer
          lockedRole := lr
          startTimeSec := st
          endTimeSec := et
          gameState := s.gameState
          scoreRed := s.scores.red
          scoreBlue := s.scores.blue
          events := s.voteEvents.map voteToSnapEvent },
        { s with
          snapshotVersion := s.snapshotVersion + 1
          snapshotMeta := some (s.snapshotVersion + 1, nowMs) }) := by
  unfold persistSnapshot
  rw [buildSnapshot_eq nowMs s rid st et lr hc hr hs hs0 he he0 hl hg]

/-- A vote log survives the snapshot round trip. -/
theorem voteEvents_roundtrip (l : List VoteEvent) :
    (l.map voteToSnapEvent).map snapToVoteEvent = l := by
  induction l with
  | nil => rfl
  | cons x xs ih => simp [voteToSnapEvent, snapToVoteEvent, ih]

/-- The versions returned by `N` successive persists on a ready state count
up one by one from the current version counter. -/
theorem persistRun_versions (nowMs : Int) (N : Nat) :
    ∀ s : AppState, snapshotReady s →
      (persistRun nowMs N s).2 =
        (List.range N).map (fun k : Nat => s.snapshotVersion + (k : Int) + 1) := by
  induction N with
  | zero => intro s _; rfl
  | succ n ih =>
    intro s hs
    obtain ⟨⟨rid, hc, hr⟩, ⟨st, hst, hst0⟩, ⟨et, het, het0⟩, ⟨lr, hl⟩, hg⟩ := hs
    have hp := persistSnapshot_eq nowMs s rid st et lr hc hr hst hst0 het het0 hl hg
    have hready' :
        snapshotReady
          { s with
            snapshotVersion := s.snapshotVersion + 1
            snapshotMeta := some (s.snapshotVersion + 1, nowMs) } :=
      ⟨⟨rid, hc, hr⟩, ⟨st, hst, hst0⟩, ⟨et, het, het0⟩, ⟨lr, hl⟩, hg⟩
    have hrec := ih _ hready'
    simp only [persistRun, hp, hrec]
    rw [List.range_succ_eq_map, List.map_cons, List.map_map]
    refine congrArg₂ _ (by simp) (List.map_congr_left ?_)
    intro k _
    simp [Function.comp]
    ring

/-- The hydrate-restores-persisted-state half of C2, proved from the
field-level hypotheses. -/
theorem persistHydrate (nowMs nowSec2 nowMs2 : Int) (s : AppState)
    (hready : snapshotReady s) :
    persistHydrateRestores nowMs nowSec2 nowMs2 s := by
  obtain ⟨⟨rid, hc, hr⟩, ⟨st, hst, hst0⟩, ⟨et, het, het0⟩, ⟨lr, hl⟩, hg⟩ := hready
  have hp := persistSnapshot_eq nowMs s rid st et lr hc hr hst hst0 het het0 hl hg
  unfold persistHydrateRestores
  rw [hp]
  dsimp only
  unfold hydrateStateFromSnapshot
  refine ⟨by simp [hc], by simp [hst], by simp [het], by simp, ?_, ?_, by simp [hl], by simp⟩
  · simp
  · exact voteEvents_roundtrip s.voteEvents

/-- C2: starting from a freshly started round (version counter 0) in a
persistable state, `N` successive persists return snapshot versions
`1, 2, ..., N`, and hydrating the snapshot returned by a persist restores
every Round/Session field of the pre-persist state (roundId, startTime,
endTime, state, both scores, vote log, locked role, sessionId) — only
`version`/`lastUpdatedAt` move on. -/
theorem persist_counts_up_and_hydrate_restores (nowMs nowSec2 nowMs2 : Int) (N : Nat)
    (s : AppState) (hready : snapshotReady s) (hv : s.snapshotVersion = 0) :
    (persistRun nowMs N s).2 = (List.range N).map (fun k : Nat => (k : Int) + 1) ∧
      persistHydrateRestores nowMs nowSec2 nowMs2 s := by
  constructor
  · rw [persistRun_versions nowMs N s hready]
    simp [hv]
  · exact persistHydrate nowMs nowSec2 nowMs2 s hready

/-- Witness for C2 on the concrete round `exRunning` with `N = 3`. -/
theorem persist_counts_up_and_hydrate_restores_witness :
    (persistRun 200000 3 exRunning).2 = [1, 2, 3] ∧
      persistHydrateRestores 200000 500 500000 exRunning := by
  have h :=
    persist_counts_up_and_hydrate_restores 200000 500 500000 3 exRunning
      ⟨⟨"r1", rfl, by decide⟩, ⟨100, rfl, by decide⟩, ⟨700, rfl, by decide⟩,
        ⟨Role.red, rfl⟩, by decide⟩
      rfl
  refine ⟨?_, h.2⟩
  rw [h.1]
  rfl

/-- Invariant of the retry loop: every send bumped the retry counter, and
the counter is capped at 3. -/
def retryInv (s : RetryState) : Prop :=
  s.sendCount = s.retryCount ∧ s.retryCount ≤ 3

/-- `retryStep` preserves the retry invariant. -/
theorem retryStep_inv (s : RetryState) (e : RetryEvent) (h : retryInv s) :
    retryInv (retryStep s e) := by
  obtain ⟨h1, h2⟩ := h
  cases e <;> unfold retryStep retryInv <;> dsimp only
  · split
    · exact ⟨h1, h2⟩
    · split
      · exact ⟨h1, h2⟩
      · split
        · exact ⟨h1, h2⟩
        · split
          · exact ⟨h1, h2⟩
          · next hle _ =>
            dsimp only at hle ⊢
            omega
  · exact ⟨h1, h2⟩
  · exact ⟨h1, h2⟩

/-- The retry invariant holds along any run of the loop. -/
theorem retryRun_inv (evs : List RetryEvent) :
    ∀ s : RetryState, retryInv s → retryInv (evs.foldl retryStep s) := by
  induction evs with
  | nil => intro s h; exact h
  | cons e rest ih => intro s h; exact ih _ (retryStep_inv s e h)

/-- C3: over any sequence of events in a session attempt the assignRoles
message is sent at most 3 times in total, and no step ever sends again
after a matching `assignRolesAck` was received or once the channel is no
longer open (both conditions are themselves permanent). -/
theorem assignRoles_sent_at_most_three_and_stops :
    (∀ evs : List RetryEvent, (retryRun evs).sendCount ≤ 3) ∧
      (∀ (s : RetryState) (e : RetryEvent), s.rolesConfirmed = true →
        (retryStep s e).sendCount = s.sendCount ∧
          (retryStep s e).rolesConfirmed = true) ∧
      (∀ (s : RetryState) (e : RetryEvent), s.channelOpen = false →
        (retryStep s e).sendCount = s.sendCount ∧
          (retryStep s e).channelOpen = false) := by
  refine ⟨?_, ?_, ?_⟩
  · intro evs
    obtain ⟨ha, hb⟩ := retryRun_inv evs retryInit ⟨rfl, by decide⟩
    unfold retryRun
    omega
  · intro s e h
    cases e
    · simp only [retryStep]
      split
      · simp [h]
      · simp [h]
    · simp [retryStep]
    · simp [retryStep, h]
  · intro s e h
    cases e
    · simp only [retryStep]
      split
      · simp [h]
      · split
        · simp [h]
        · split
          · simp [h]
          · simp [h]
    · simp [retryStep, h]
    · simp [retryStep]

/-- Witness for C3: a run of four timer firings still sends at most 3
times, and concrete confirmed/closed states never send. -/
theorem assignRoles_sent_at_most_three_and_stops_witness :
    (retryRun [.timerFire, .timerFire, .timerFire, .timerFire]).sendCount ≤ 3 ∧
      ((retryStep ⟨2, 2, true, true, true⟩ .timerFire).sendCount = 2 ∧
        (retryStep ⟨2, 2, true, true, true⟩ .timerFire).rolesConfirmed = true) ∧
      ((retryStep ⟨2, 2, false, false, true⟩ .timerFire).sendCount = 2 ∧
        (retryStep ⟨2, 2, false, false, true⟩ .timerFire).channelOpen = false) :=
  ⟨assignRoles_sent_at_most_three_and_stops.1 _,
    assignRoles_sent_at_most_three_and_stops.2.1 ⟨2, 2, true, true, true⟩ .timerFire rfl,
    assignRoles_sent_at_most_three_and_stops.2.2 ⟨2, 2, false, false, true⟩ .timerFire rfl⟩

/-- Membership in the ids of `upsertEntry`: the new id plus the old ids. -/
theorem mem_ids_upsertEntry (a : String) (e : HistoryIndexEntry)
    (l : List HistoryIndexEntry) :
    a ∈ (upsertEntry e l).map HistoryIndexEntry.gameId ↔
      a = e.gameId ∨ a ∈ l.map HistoryIndexEntry.gameId := by
  induction l with
  | nil => simp [upsertEntry]
  | cons x xs ih =>
    unfold upsertEntry
    by_cases hx : x.gameId = e.gameId
    · rw [if_pos hx]
      simp only [List.map_cons, List.mem_cons, hx]
      tauto
    · rw [if_neg hx]
      simp only [List.map_cons, List.mem_cons, ih]
      tauto

/-- `upsertEntry` keeps roundIds duplicate-free. -/
theorem nodup_ids_upsertEntry (e : HistoryIndexEntry) (l : List HistoryIndexEntry)
    (h : (l.map HistoryIndexEntry.gameId).Nodup) :
    ((upsertEntry e l).map HistoryIndexEntry.gameId).Nodup := by
  induction l with
  | nil => simp [upsertEntry]
  | cons x xs ih =>
    rw [List.map_cons, List.nodup_cons] at h
    unfold upsertEntry
    by_cases hx : x.gameId = e.gameId
    · rw [if_pos hx, List.map_cons, List.nodup_cons]
      exact ⟨hx ▸ h.1, h.2⟩
    · rw [if_neg hx, List.map_cons, List.nodup_cons]
      refine ⟨?_, ih h.2⟩
      rw [mem_ids_upsertEntry]
      push_neg
      exact ⟨hx, h.1⟩

/-- The invariant of the history index: sorted for the descending
comparator, and each roundId appears at most once. -/
def histInv (idx : List HistoryIndexEntry) : Prop :=
  idx.Sorted histLE ∧ (idx.map HistoryIndexEntry.gameId).Nodup

/-- Each history-index operation preserves the invariant. -/
theorem applyHistOp_inv (idx : List HistoryIndexEntry) (op : HistOp)
    (h : histInv idx) : histInv (applyHistOp idx op) := by
  obtain ⟨hs, hn⟩ := h
  cases op with
  | upsert snap =>
    simp only [applyHistOp, upsertHistoryIndex]
    by_cases hcase : snap.gameState = GameState.ended
    · rw [if_neg (not_not_intro hcase)]
      refine ⟨List.sorted_insertionSort histLE _, ?_⟩
      refine (((List.perm_insertionSort histLE _).map HistoryIndexEntry.gameId).nodup_iff).mpr ?_
      exact nodup_ids_upsertEntry _ idx hn
    · rw [if_pos hcase]
      exact ⟨hs, hn⟩
  | remove gid =>
    simp only [applyHistOp]
    refine ⟨List.Pairwise.filter _ hs, ?_⟩
    exact List.Nodup.sublist ((List.filter_sublist idx).map HistoryIndexEntry.gameId) hn

/-- C9: after any sequence of upserts (from ended-round snapshots) and
removals starting from the empty index, the history index is sorted by
endTime descending with ties broken by lastUpdatedAt descending, and each
roundId appears at most once. -/
theorem history_index_sorted_and_ids_unique (ops : List HistOp) :
    (runHistOps ops).Sorted histLE ∧
      ((runHistOps ops).map HistoryIndexEntry.gameId).Nodup := by
  have hrun : ∀ (l : List HistOp) (idx : List HistoryIndexEntry),
      histInv idx → histInv (l.foldl applyHistOp idx) := by
    intro l
    induction l with
    | nil => intro idx h; exact h
    | cons op rest ih => intro idx h; exact ih _ (applyHistOp_inv idx op h)
  exact hrun ops [] ⟨List.sorted_nil, List.nodup_nil⟩

end VoteGame
